import Mathlib

/-!
Shallow embedding of the x402-sdk payment-verification core (Rust) in Lean 4.

Modules embedded:
- src/types.rs   : chain/currency/payment data model
- src/core.rs    : the X402 protocol engine (sessions, verify_payment,
                   handle_access_request, register_chain_verifier)
- src/verifier/mod.rs    : error taxonomy and verifier registry
- src/verifier/evm.rs    : EVM native / ERC20 verification over a modelled ledger
- src/verifier/solana.rs : Solana verification over a modelled ledger

Rust machine integers are modelled as Nat with explicit bounds where overflow
or truncation matters (U64 checked_sub saturates to zero, which coincides with
Nat subtraction).  HashMap is modelled as an association list with
insert-replaces semantics.  Wall-clock time, freshly generated UUID nonces and
the external ledger (RPC provider) are passed in explicitly as parameters.
-/

deriving instance DecidableEq for Except

/-- EvmChain from src/types.rs. -/
inductive EvmChain
  | Ethereum
  | Polygon
  | BinanceSmartChain
  | Arbitrum
  | Optimism
  | Avalanche
  | Base
  | Custom (id : String)
deriving DecidableEq

/-- AptosChain from src/types.rs. -/
inductive AptosChain
  | Mainnet
  | Testnet
  | Devnet
  | Custom (id : String)
deriving DecidableEq

/-- SuiChain from src/types.rs. -/
inductive SuiChain
  | Mainnet
  | Testnet
  | Devnet
  | Custom (id : String)
deriving DecidableEq

/-- SolanaChain from src/types.rs. -/
inductive SolanaChain
  | Mainnet
  | Testnet
  | Devnet
  | Custom (id : String)
deriving DecidableEq

/-- ChainType from src/types.rs. -/
inductive ChainType
  | Evm (c : EvmChain)
  | Aptos (c : AptosChain)
  | Sui (c : SuiChain)
  | Solana (c : SolanaChain)
  | Custom (id : String)
deriving DecidableEq

/-- ChainType::get_standard_chain_id from src/types.rs. -/
def ChainType.get_standard_chain_id : ChainType → String
  | .Evm c => match c with
      | .Ethereum => "1"
      | .Polygon => "137"
      | .BinanceSmartChain => "56"
      | .Arbitrum => "42161"
      | .Optimism => "10"
      | .Avalanche => "43114"
      | .Base => "8453"
      | .Custom id => id
  | .Aptos c => match c with
      | .Mainnet => "1"
      | .Testnet => "2"
      | .Devnet => "devnet"
      | .Custom id => id
  | .Sui c => match c with
      | .Mainnet => "mainnet"
      | .Testnet => "testnet"
      | .Devnet => "devnet"
      | .Custom id => id
  | .Solana c => match c with
      | .Mainnet => "mainnet-beta"
      | .Testnet => "testnet"
      | .Devnet => "devnet"
      | .Custom id => id
  | .Custom id => id

/-- ChainConfig from src/types.rs. -/
structure ChainConfig where
  chain_type : ChainType
  chain_id : String
  rpc_url : Option String
deriving DecidableEq

/-- Currency from src/types.rs; decimals is a Rust u8. -/
inductive Currency
  | Native
  | Token (address : String) (decimals : Nat)
deriving DecidableEq

/-- PaymentRequest from src/types.rs. -/
structure PaymentRequest where
  amount : String
  currency : Currency
  recipient : String
  chain : ChainConfig
  description : Option String
  expires_at : Option Nat
  nonce : String
deriving DecidableEq

/-- TransactionLog from src/types.rs.  The Rust fields named from and to are
spelled tx_from and tx_to here because both words are Lean keywords. -/
structure TransactionLog where
  transaction_hash : String
  tx_from : String
  tx_to : String
  value : String
  block_number : Nat
  log_index : Nat
  data : Option String
deriving DecidableEq

/-- PaymentVerification from src/types.rs. -/
structure PaymentVerification where
  is_paid : Bool
  paid_amount : String
  transaction_hash : Option String
  verified_at : Nat
  chain : ChainConfig
  transaction_logs : List TransactionLog
deriving DecidableEq

/-- X402ProtocolResponse from src/types.rs. -/
structure X402ProtocolResponse where
  status : Nat
  payment_required : PaymentRequest
  verification_url : Option String
deriving DecidableEq

/-- VerificationResult from src/types.rs. -/
structure VerificationResult where
  should_serve_content : Bool
  http_status : Nat
  x402_response : Option X402ProtocolResponse
  verification : Option PaymentVerification
deriving DecidableEq

/-- VerificationError from src/verifier/mod.rs. -/
inductive VerificationError
  | NetworkError (msg : String)
  | InvalidAddress
  | ChainNotSupported
  | RpcError (msg : String)
  | TransactionNotFound
  | InsufficientAmount
  | InvalidCurrency
  | Timeout
  | ParseError (msg : String)
  | Error (msg : String)
deriving DecidableEq

/-- ConfigError from src/config.rs. -/
inductive ConfigError
  | FileNotFound (path : String)
  | InvalidConfig (msg : String)
  | ChainMissing (chain : ChainType)
  | IoError (msg : String)
  | SerializationError (msg : String)
deriving DecidableEq

/-- EngineError from src/core.rs. -/
inductive EngineError
  | ConfigErr (e : ConfigError)
  | VerificationErr (e : VerificationError)
  | InvalidSession
  | AddressMismatch
  | ChainNotSupported (c : ChainType)
  | VerificationFailed (e : VerificationError)
  | InvalidCurrencyConfig
deriving DecidableEq

/-- PaymentSession from src/core.rs. -/
structure PaymentSession where
  user_address : String
  payment_request : PaymentRequest
  created_at : Nat
  verified : Bool
deriving DecidableEq

/-- The payment_sessions_cache HashMap, modelled as an association list with
no duplicate keys maintained by insert-replaces. -/
abbrev Sessions := List (String × PaymentSession)

/-- HashMap::get, modelled on the association list. -/
def lookupSession : Sessions → String → Option PaymentSession
  | [], _ => none
  | (k, s) :: rest, n => if k = n then some s else lookupSession rest n

/-- Drop every binding for a key (auxiliary for insert-replaces). -/
def removeKey (f : String) : Sessions → Sessions
  | [] => []
  | (k, s) :: rest =>
    if k = f then removeKey f rest else (k, s) :: removeKey f rest

/-- HashMap::insert (replace an existing binding for the key). -/
def insertSession (k : String) (s : PaymentSession) (m : Sessions) : Sessions :=
  (k, s) :: removeKey k m

/-- get_mut followed by session.verified = true in X402::verify_payment. -/
def setVerified (m : Sessions) (n : String) : Sessions :=
  m.map (fun p => if p.1 = n then (p.1, { p.2 with verified := true }) else p)

/-- A registered verifier: the behaviour of dyn PaymentVerifier::verify_payment
at the moment of the call (the live ledger state it observes is baked in). -/
def Verifier := PaymentRequest → String → Except VerificationError PaymentVerification

/-- The VerifierRegistry lookup view: which verifier (if any) is registered
for a chain type. -/
abbrev Registry := ChainType → Option Verifier

/-- CurrencyType from src/config.rs. -/
inductive CurrencyType
  | Native
  | Erc20
  | Erc721
  | Coin
deriving DecidableEq

/-- CurrencyConfig from src/config.rs. -/
structure CurrencyConfig where
  currency_type : CurrencyType
  address : Option String
  decimals : Nat
deriving DecidableEq

/-- ServiceConfig from src/config.rs. -/
structure ServiceConfig where
  name : String
  description : String
  base_verification_url : String
  default_currency : CurrencyConfig
deriving DecidableEq

/-- PaymentConfig from src/config.rs (fee_recovery_percent, an f64 unused by
the engine, is omitted). -/
structure PaymentConfig where
  default_amount : String
  expiration_time_secs : Nat
  allowed_currencies : List CurrencyConfig
deriving DecidableEq

/-- X402Config from src/config.rs (the cache block, unused by the engine, is
omitted); the chains HashMap is an association list. -/
structure X402Config where
  service : ServiceConfig
  chains : List (ChainType × ChainConfig)
  payments : PaymentConfig
  default_chain : ChainType
deriving DecidableEq

/-- ConfigManager::get_chain_config / the chains HashMap lookup. -/
def lookupChainConfig : List (ChainType × ChainConfig) → ChainType → Option ChainConfig
  | [], _ => none
  | (k, c) :: rest, t => if k = t then some c else lookupChainConfig rest t

namespace X402

/-- X402::verify_payment from src/core.rs (lines 109-144).  Returns the Rust
Result together with the sessions map after the call. -/
def verify_payment (sessions : Sessions) (registry : Registry)
    (user_address payment_nonce : String) :
    Except EngineError PaymentVerification × Sessions :=
  match lookupSession sessions payment_nonce with
  | none => (.error .InvalidSession, sessions)
  | some session =>
    if session.user_address ≠ user_address then
      (.error .AddressMismatch, sessions)
    else
      let chain_type := session.payment_request.chain.chain_type
      match registry chain_type with
      | none => (.error (.ChainNotSupported chain_type), sessions)
      | some verifier =>
        match verifier session.payment_request user_address with
        | .error e => (.error (.VerificationFailed e), sessions)
        | .ok verification =>
          if verification.is_paid then
            (.ok verification, setVerified sessions payment_nonce)
          else
            (.ok verification, sessions)

/-- The currency match inside X402::create_payment_request (lines 157-174):
Native and every currency type other than Erc20 give Currency::Native; Erc20
requires a token address. -/
def currency_from_config (c : CurrencyConfig) : Except EngineError Currency :=
  match c.currency_type with
  | .Native => .ok .Native
  | .Erc20 =>
    match c.address with
    | none => .error .InvalidCurrencyConfig
    | some token_address => .ok (.Token token_address c.decimals)
  | _ => .ok .Native

/-- X402::create_payment_request from src/core.rs (lines 146-190).  The wall
clock (now) and the freshly generated UUID v4 nonce (fresh_nonce) are passed
in explicitly; service_address is ConfigManager::get_service_address. -/
def create_payment_request (cfg : X402Config) (service_address : String)
    (now : Nat) (fresh_nonce : String)
    (resource_path : String) (custom_amount : Option String) :
    Except EngineError PaymentRequest :=
  match lookupChainConfig cfg.chains cfg.default_chain with
  | none => .error (.ConfigErr (.ChainMissing cfg.default_chain))
  | some default_chain =>
    match currency_from_config cfg.service.default_currency with
    | .error e => .error e
    | .ok currency =>
      .ok { amount := custom_amount.getD cfg.payments.default_amount
            currency := currency
            recipient := service_address
            chain := default_chain
            description := some ("Access to: " ++ resource_path)
            expires_at := some (now + cfg.payments.expiration_time_secs)
            nonce := fresh_nonce }

/-- X402::store_payment_session from src/core.rs (lines 192-205). -/
def store_payment_session (sessions : Sessions) (now : Nat)
    (user_address : String) (payment_request : PaymentRequest) : Sessions :=
  insertSession payment_request.nonce
    { user_address := user_address
      payment_request := payment_request
      created_at := now
      verified := false }
    sessions

/-- The fallthrough tail of X402::handle_access_request (lines 267-285):
build a fresh challenge, store its session, answer 402. -/
def issue_challenge (sessions : Sessions) (cfg : X402Config)
    (service_address : String) (now : Nat) (fresh_nonce : String)
    (user_address resource_path : String) (custom_amount : Option String) :
    Except EngineError VerificationResult × Sessions :=
  match create_payment_request cfg service_address now fresh_nonce
      resource_path custom_amount with
  | .error e => (.error e, sessions)
  | .ok payment_request =>
    let x402_response : X402ProtocolResponse :=
      { status := 402
        payment_required := payment_request
        verification_url :=
          some (cfg.service.base_verification_url ++ "/" ++ payment_request.nonce) }
    (.ok { should_serve_content := false
           http_status := 402
           x402_response := some x402_response
           verification := none },
     store_payment_session sessions now user_address payment_request)

/-- X402::handle_access_request from src/core.rs (lines 248-285). -/
def handle_access_request (sessions : Sessions) (registry : Registry)
    (cfg : X402Config) (service_address : String) (now : Nat)
    (fresh_nonce : String) (user_address resource_path : String)
    (payment_nonce : Option String) (custom_amount : Option String) :
    Except EngineError VerificationResult × Sessions :=
  match payment_nonce with
  | some nonce =>
    match verify_payment sessions registry user_address nonce with
    | (.ok verification, sessions') =>
      if verification.is_paid then
        (.ok { should_serve_content := true
               http_status := 200
               x402_response := none
               verification := some verification },
         sessions')
      else
        issue_challenge sessions' cfg service_address now fresh_nonce
          user_address resource_path custom_amount
    | (.error _, sessions') =>
      issue_challenge sessions' cfg service_address now fresh_nonce
        user_address resource_path custom_amount
  | none =>
    issue_challenge sessions cfg service_address now fresh_nonce
      user_address resource_path custom_amount

/-- VerifierRegistry::register_verifier (HashMap insert) on the registry
lookup view. -/
def insertVerifier (registry : Registry) (chain_type : ChainType)
    (v : Verifier) : Registry :=
  fun c => if c = chain_type then some v else registry c

/-- X402::register_chain_verifier from src/core.rs (lines 68-107).  The
outcome of the EvmVerifier::new live handshake at the given rpc_url is passed
in as mkEvm; the Aptos/Sui/Solana constructors are infallible in the source,
so a constructed verifier is passed in for each.  Returns the Rust Result
together with the registry after the call. -/
def register_chain_verifier (cfg : X402Config) (registry : Registry)
    (chain_type : ChainType)
    (mkEvm : Except VerificationError Verifier)
    (mkAptos mkSui mkSolana : Verifier) :
    Except EngineError Unit × Registry :=
  match lookupChainConfig cfg.chains chain_type with
  | none => (.error (.ChainNotSupported chain_type), registry)
  | some _ =>
    match chain_type with
    | .Evm _ =>
      match mkEvm with
      | .error e => (.error (.VerificationErr e), registry)
      | .ok v => (.ok (), insertVerifier registry chain_type v)
    | .Aptos _ => (.ok (), insertVerifier registry chain_type mkAptos)
    | .Sui _ => (.ok (), insertVerifier registry chain_type mkSui)
    | .Solana _ => (.ok (), insertVerifier registry chain_type mkSolana)
    | .Custom _ => (.error (.ChainNotSupported chain_type), registry)

end X402

/-- Lowercase hex digit for a value below 16. -/
def hexDigitChar (n : Nat) : Char :=
  if n < 10 then Char.ofNat (48 + n) else Char.ofNat (87 + n)

/-- Big-endian fixed-width hex rendering (width hex digits). -/
def toHexChars : Nat → Nat → List Char
  | 0, _ => []
  | w + 1, v => toHexChars w (v / 16) ++ [hexDigitChar (v % 16)]

/-- Debug rendering of an H160 address: 0x followed by 40 lowercase hex
digits, as produced by the format! debug formatter in the source. -/
def addrFormat (a : Nat) : String :=
  "0x" ++ String.mk (toHexChars 40 a)

/-- hex::encode of a byte slice: lowercase hex, no 0x. -/
def hexEncode (bytes : List Nat) : String :=
  String.mk (bytes.foldr (fun b acc => toHexChars 2 b ++ acc) [])

/-- Value of one hex digit character, none for a non-hex character. -/
def hexVal? (c : Char) : Option Nat :=
  if '0' ≤ c ∧ c ≤ '9' then some (c.toNat - 48)
  else if 'a' ≤ c ∧ c ≤ 'f' then some (c.toNat - 87)
  else if 'A' ≤ c ∧ c ≤ 'F' then some (c.toNat - 55)
  else none

/-- Decimal value of a digit string. -/
def digitsToNat (cs : List Char) : Nat :=
  cs.foldl (fun acc c => acc * 10 + (c.toNat - 48)) 0

/-- Rust u64 FromStr: an optional leading plus sign, then one or more ASCII
digits, value below 2^64; none on any other input (including overflow). -/
def parseU64 (s : String) : Option Nat :=
  let cs := s.toList
  let ds := match cs with
    | '+' :: rest => rest
    | _ => cs
  if !ds.isEmpty && ds.all Char.isDigit then
    let v := digitsToNat ds
    if v < 2 ^ 64 then some v else none
  else
    none

namespace EvmVerifier

/-- EvmVerifier::parse_address from src/verifier/evm.rs: H160::from_str via
fixed-hash, which strips an optional 0x and requires exactly 40 hex digits.
The 160-bit address value is modelled as a Nat. -/
def parse_address (s : String) : Except VerificationError Nat :=
  let cs := match s.toList with
    | '0' :: 'x' :: rest => rest
    | other => other
  if cs.length == 40 && cs.all (fun c => (hexVal? c).isSome) then
    .ok (cs.foldl (fun acc c => acc * 16 + (hexVal? c).getD 0) 0)
  else
    .error .InvalidAddress

/-- EvmVerifier::parse_amount from src/verifier/evm.rs: U256::from_dec_str,
which accepts any (possibly empty) run of ASCII digits whose value fits in
256 bits. -/
def parse_amount (s : String) : Except VerificationError Nat :=
  let cs := s.toList
  if cs.all Char.isDigit then
    let v := digitsToNat cs
    if v < 2 ^ 256 then .ok v
    else .error (.ParseError "Parse Error: InvalidLength")
  else
    .error (.ParseError "Parse Error: InvalidCharacter")

/-- The two log filters the EVM verifier builds: the native scan (all logs
addressed to the recipient in the block window) and the ERC20 Transfer filter
(token contract address, topic1 = payer, topic2 = recipient). -/
inductive EvmFilter
  | native (from_block to_block : Nat) (address : Nat)
  | erc20Transfer (from_block to_block : Nat) (token payer recipient : Nat)
deriving DecidableEq

/-- An ethers log entry as the verifier consumes it: optional transaction
hash, optional block number and log index, and the raw data bytes. -/
structure RawLog where
  transaction_hash : Option String
  block_number : Option Nat
  log_index : Option Nat
  data : List Nat
deriving DecidableEq

/-- An ethers transaction as the native scan consumes it.  from and to are
spelled tx_from and tx_to (Lean keywords); value is a U256 modelled as Nat. -/
structure EvmTx where
  tx_from : Nat
  tx_to : Option Nat
  value : Nat
deriving DecidableEq

/-- The provider (ledger) operations the EVM verifier performs, as observed
at the moment of the call.  Transaction hashes are modelled already in their
0x-hex debug rendering, so the format! debug formatter on a hash is the
identity here. -/
structure EvmLedger where
  get_block_number : Except String Nat
  get_logs : EvmFilter → Except String (List RawLog)
  get_transaction : String → Except String (Option EvmTx)

/-- The loop body of EvmVerifier::check_recent_transactions (lines 190-208):
skip a log with no transaction hash or whose transaction lookup does not
return Ok(Some(tx)); record every resolved transaction in the audit trail;
flag payment when the sender is the payer and the value covers the required
amount. -/
def scanNative (getTx : String → Except String (Option EvmTx))
    (payer required : Nat) : List RawLog → Bool × List TransactionLog
  | [] => (false, [])
  | log :: rest =>
    match log.transaction_hash with
    | none => scanNative getTx payer required rest
    | some h =>
      match getTx h with
      | .ok (some tx) =>
        let entry : TransactionLog :=
          { transaction_hash := h
            tx_from := addrFormat tx.tx_from
            tx_to := addrFormat (tx.tx_to.getD 0)
            value := toString tx.value
            block_number := log.block_number.getD 0
            log_index := log.log_index.getD 0
            data := none }
        let found_rest := scanNative getTx payer required rest
        ((tx.tx_from == payer && decide (required ≤ tx.value)) || found_rest.1,
         entry :: found_rest.2)
      | _ => scanNative getTx payer required rest

/-- EvmVerifier::check_recent_transactions from src/verifier/evm.rs (lines
167-210).  U64 checked_sub with unwrap_or(zero) coincides with truncated Nat
subtraction. -/
def check_recent_transactions (ledger : EvmLedger)
    (payer recipient required_amount : Nat) :
    Except VerificationError (Bool × List TransactionLog) :=
  match ledger.get_block_number with
  | .error e => .error (.RpcError e)
  | .ok latest_block =>
    let from_block := latest_block - 100
    match ledger.get_logs (.native from_block latest_block recipient) with
    | .error e => .error (.RpcError e)
    | .ok logs => .ok (scanNative ledger.get_transaction payer required_amount logs)

/-- EvmVerifier::verify_native_payment from src/verifier/evm.rs. -/
def verify_native_payment (ledger : EvmLedger)
    (payer recipient required_amount : Nat) :
    Except VerificationError (Bool × List TransactionLog) :=
  check_recent_transactions ledger payer recipient required_amount

/-- The loop body of EvmVerifier::verify_erc20_payment (lines 146-163): skip
a log with no transaction hash or with fewer than 32 data bytes; the
transferred value is the big-endian integer in the first 32 data bytes. -/
def scanErc20 (payer recipient adjusted_amount : Nat) :
    List RawLog → Bool × List TransactionLog
  | [] => (false, [])
  | log :: rest =>
    match log.transaction_hash with
    | none => scanErc20 payer recipient adjusted_amount rest
    | some h =>
      if log.data.length < 32 then scanErc20 payer recipient adjusted_amount rest
      else
        let dataSlice := log.data.take 32
        let amount := dataSlice.foldl (fun acc b => acc * 256 + b) 0
        let entry : TransactionLog :=
          { transaction_hash := h
            tx_from := addrFormat payer
            tx_to := addrFormat recipient
            value := toString amount
            block_number := log.block_number.getD 0
            log_index := log.log_index.getD 0
            data := some (hexEncode dataSlice) }
        let found_rest := scanErc20 payer recipient adjusted_amount rest
        (decide (adjusted_amount ≤ amount) || found_rest.1, entry :: found_rest.2)

/-- EvmVerifier::verify_erc20_payment from src/verifier/evm.rs (lines
127-165) together with create_erc20_transfer_filter (lines 212-232).  The
source computes U256::from(10).pow(decimals) and then multiplies by the
required amount; both U256::pow and U256::Mul panic on overflow.  The model
uses total Nat arithmetic, so it is faithful only where neither operation
overflows: the theorems about this path carry both bounds,
10^decimals < 2^256 (pow does not panic) and
required_amount * 10^decimals < 2^256 (the multiply does not panic). -/
def verify_erc20_payment (ledger : EvmLedger)
    (payer recipient token_address required_amount decimals : Nat) :
    Except VerificationError (Bool × List TransactionLog) :=
  let adjusted_amount := required_amount * 10 ^ decimals
  match ledger.get_block_number with
  | .error e => .error (.RpcError e)
  | .ok latest_block =>
    let from_block := latest_block - 100
    match ledger.get_logs
        (.erc20Transfer from_block latest_block token_address payer recipient) with
    | .error e => .error (.RpcError e)
    | .ok logs => .ok (scanErc20 payer recipient adjusted_amount logs)

/-- EvmVerifier::verify_payment_internal from src/verifier/evm.rs (lines
76-115).  The wall clock (current_timestamp) is passed in as now; the Rust ?
operator is written as explicit error matches. -/
def verify_payment_internal (ledger : EvmLedger) (now : Nat)
    (payment_request : PaymentRequest) (payer_address : String) :
    Except VerificationError PaymentVerification :=
  match parse_address payer_address with
  | .error e => .error e
  | .ok payer =>
    match parse_address payment_request.recipient with
    | .error e => .error e
    | .ok recipient =>
      match parse_amount payment_request.amount with
      | .error e => .error e
      | .ok required_amount =>
        match
          match payment_request.currency with
          | .Native =>
            verify_native_payment ledger payer recipient required_amount
          | .Token address decimals =>
            match parse_address address with
            | .error e => .error e
            | .ok token_address =>
              verify_erc20_payment ledger payer recipient token_address
                required_amount decimals
        with
        | .error e => .error e
        | .ok scanned =>
          .ok { is_paid := scanned.1
                paid_amount := if scanned.1 then payment_request.amount else "0"
                transaction_hash := scanned.2.head?.map (·.transaction_hash)
                verified_at := now
                chain := payment_request.chain
                transaction_logs := scanned.2 }

/-- The PaymentVerifier impl for EvmVerifier: verify_payment just delegates
to verify_payment_internal. -/
def asVerifier (ledger : EvmLedger) (now : Nat) : Verifier :=
  fun payment_request payer_address =>
    verify_payment_internal ledger now payment_request payer_address

/-- The expected-chain-id table inside EvmVerifier::new from
src/verifier/evm.rs (lines 49-63); the Custom id is parsed as a u64. -/
def expectedChainId : EvmChain → Except VerificationError Nat
  | .Ethereum => .ok 1
  | .Polygon => .ok 137
  | .BinanceSmartChain => .ok 56
  | .Arbitrum => .ok 42161
  | .Optimism => .ok 10
  | .Avalanche => .ok 43114
  | .Base => .ok 8453
  | .Custom id =>
    match parseU64 id with
    | some n => .ok n
    | none => .error (.ParseError ("Invalid custom chain ID: " ++ id))

end EvmVerifier

/-- A Rust computation outcome distinguishing a normal Ok, a typed Err, and
abnormal termination (a panic, as raised by todo! or unwrap on an Err). -/
inductive RustResult (ε α : Type)
  | ok (a : α)
  | err (e : ε)
  | panicked (msg : String)
deriving DecidableEq

namespace SolanaVerifier

/-- The view of the external solana_network_sdk TransactionInfo that
src/verifier/solana.rs consumes.  The SDK accessors are modelled as fields:
is_successful() as successful, is_recipient(r) as equality of r with the
recipient field, get_payment_amount() as payment_amount (lamports, u64). -/
structure TransactionInfo where
  successful : Bool
  recipient : String
  payment_amount : Nat
  output_amount : Option Nat
  transaction_hash : String
  tx_from : String
  tx_to : String
  value : String
  block_number : Nat
  log_index : Nat
  data : Option String
deriving DecidableEq

/-- One element of the transaction listing (only the signature is used). -/
structure SolSignature where
  signature : String
deriving DecidableEq

/-- The Solana client operations the verifier performs, as observed at the
moment of the call.  get_transaction_details and
TransactionInfo::from_encoded_transaction are collapsed into one lookup from
signature to decoded transaction info. -/
structure SolanaLedger where
  is_valid_address : String → Bool
  get_transactions_by_recipient_and_payer_strict :
    String → String → Nat → Except String (List SolSignature)
  get_transaction_details : String → Except String TransactionInfo

/-- SolanaVerifier::parse_amount_to_lamports from src/verifier/solana.rs
(lines 50-72).  A string containing a decimal point is parsed by the source
as an f64 SOL amount, multiplied by 1e9 and rounded half away from zero; the
model performs that computation in exact decimal arithmetic, which agrees
with the IEEE double computation on amounts with short decimal expansions
(such as every amount in this development) and rejects a leading sign.  A
string without a decimal point is parsed as a u64 lamports amount. -/
def parse_amount_to_lamports (amount : String) : Except String Nat :=
  let trimmed :=
    ((amount.toList.dropWhile Char.isWhitespace).reverse.dropWhile
      Char.isWhitespace).reverse
  let cleaned := trimmed.filter (fun c => c ≠ ',')
  if cleaned.isEmpty then .error "Amount cannot be empty"
  else if cleaned.contains '.' then
    match cleaned with
    | '-' :: _ => .error "The amount cannot be negative"
    | _ =>
      let intPart := cleaned.takeWhile (fun c => c ≠ '.')
      let fracPart := (cleaned.dropWhile (fun c => c ≠ '.')).drop 1
      if intPart.all Char.isDigit && fracPart.all Char.isDigit
          && !(intPart.isEmpty && fracPart.isEmpty) then
        let den := 10 ^ fracPart.length
        .ok (digitsToNat intPart * 1000000000 +
          (digitsToNat fracPart * 1000000000 + den / 2) / den)
      else
        .error ("Invalid SOL amount format: " ++ String.mk cleaned)
  else
    match parseU64 (String.mk cleaned) with
    | some lamports => .ok lamports
    | none => .error ("Invalid lamports amount format: " ++ String.mk cleaned)

/-- SolanaVerifier::check_transaction_payment from src/verifier/solana.rs
(lines 23-47). -/
def check_transaction_payment (transaction : TransactionInfo)
    (recipient required_amount : String) : Except VerificationError Bool :=
  if !transaction.successful then .ok false
  else if !(transaction.recipient == recipient) then .ok false
  else
    match parse_amount_to_lamports required_amount with
    | .error e => .error (.ParseError e)
    | .ok required_lamports =>
      if transaction.payment_amount ≥ required_lamports then .ok true
      else .ok false

/-- The loop inside SolanaVerifier::verify_payment (lines 104-132): fetch
each transaction's details (unwrap panics if that fetch fails), stop at the
first qualifying transaction. -/
def scanTransactions (ledger : SolanaLedger) (recipient required_amount : String) :
    List SolSignature → RustResult VerificationError (Option (TransactionInfo × String))
  | [] => .ok none
  | t :: rest =>
    match ledger.get_transaction_details t.signature with
    | .error _ => .panicked "called Result unwrap on an Err value"
    | .ok transaction_info =>
      match check_transaction_payment transaction_info recipient required_amount with
      | .error e => .err e
      | .ok true => .ok (some (transaction_info, t.signature))
      | .ok false => scanTransactions ledger recipient required_amount rest

/-- SolanaVerifier::verify_payment from src/verifier/solana.rs (lines
77-147).  The Err arm of the transaction-listing match is todo!, which
panics with the message below. -/
def verify_payment (ledger : SolanaLedger) (now : Nat)
    (payment_request : PaymentRequest) (payer_address : String) :
    RustResult VerificationError PaymentVerification :=
  if !ledger.is_valid_address payer_address then
    .err (.Error "payer address error")
  else if !ledger.is_valid_address payment_request.recipient then
    .err (.Error "recipient address error")
  else
    match ledger.get_transactions_by_recipient_and_payer_strict
        payment_request.recipient payer_address 50 with
    | .error _ => .panicked "not yet implemented"
    | .ok transactions =>
      match scanTransactions ledger payment_request.recipient
          payment_request.amount transactions with
      | .panicked m => .panicked m
      | .err e => .err e
      | .ok none =>
        .ok { is_paid := false
              paid_amount := "0"
              transaction_hash := none
              verified_at := now
              chain := payment_request.chain
              transaction_logs := [] }
      | .ok (some (transaction_info, signature)) =>
        .ok { is_paid := true
              paid_amount := toString (transaction_info.output_amount.getD 0)
              transaction_hash := some signature
              verified_at := now
              chain := payment_request.chain
              transaction_logs :=
                [{ transaction_hash := transaction_info.transaction_hash
                   tx_from := transaction_info.tx_from
                   tx_to := transaction_info.tx_to
                   value := transaction_info.value
                   block_number := transaction_info.block_number
                   log_index := transaction_info.log_index
                   data := transaction_info.data }] }

end SolanaVerifier

/-! ### Session-map lemmas -/

theorem lookupSession_removeKey (m : Sessions) (f k : String) (h : f ≠ k) :
    lookupSession (removeKey f m) k = lookupSession m k := by
  induction m with
  | nil => rfl
  | cons hd tl ih =>
    obtain ⟨a, s⟩ := hd
    by_cases hf : a = f
    · subst hf
      have hk : ¬ (a = k) := fun hak => h (hak ▸ rfl)
      rw [removeKey, if_pos rfl, ih, lookupSession, if_neg hk]
    · rw [removeKey, if_neg hf, lookupSession, lookupSession]
      by_cases hk : a = k
      · rw [if_pos hk, if_pos hk]
      · rw [if_neg hk, if_neg hk, ih]

theorem lookupSession_insert (f k : String) (s : PaymentSession) (m : Sessions) :
    lookupSession (insertSession f s m) k =
      if f = k then some s else lookupSession m k := by
  by_cases h : f = k
  · simp [insertSession, lookupSession, h]
  · rw [insertSession, lookupSession, if_neg h, if_neg h]
    exact lookupSession_removeKey m f k h

theorem lookupSession_setVerified (m : Sessions) (n k : String) :
    lookupSession (setVerified m n) k =
      if n = k then (lookupSession m k).map (fun s => { s with verified := true })
      else lookupSession m k := by
  induction m with
  | nil => by_cases h : n = k <;> simp [setVerified, lookupSession, h]
  | cons hd tl ih =>
    obtain ⟨a, s⟩ := hd
    simp only [setVerified, List.map_cons] at ih ⊢
    by_cases han : a = n
    · subst han
      rw [if_pos rfl]
      by_cases hak : a = k
      · subst hak
        simp [lookupSession]
      · rw [lookupSession, if_neg hak, ih, if_neg hak, lookupSession, if_neg hak,
          if_neg hak]
    · rw [if_neg han]
      by_cases hak : a = k
      · subst hak
        have hnk : ¬ (n = a) := fun hna => han hna.symm
        rw [lookupSession, if_pos rfl, if_neg hnk, lookupSession, if_pos rfl]
      · rw [lookupSession, if_neg hak, ih, lookupSession, if_neg hak]

/-! ### Shape lemmas for verify_payment -/

theorem verify_payment_shape (sessions : Sessions) (registry : Registry)
    (u n : String) :
    (X402.verify_payment sessions registry u n).2 = sessions
    ∨ ((∃ v, (X402.verify_payment sessions registry u n).1 = .ok v
          ∧ v.is_paid = true)
       ∧ (X402.verify_payment sessions registry u n).2 = setVerified sessions n) := by
  cases hl : lookupSession sessions n with
  | none => exact Or.inl (by simp [X402.verify_payment, hl])
  | some s =>
    by_cases hu : s.user_address ≠ u
    · exact Or.inl (by simp [X402.verify_payment, hl, hu])
    · cases hr : registry s.payment_request.chain.chain_type with
      | none => exact Or.inl (by simp [X402.verify_payment, hl, hu, hr])
      | some vf =>
        cases hv : vf s.payment_request u with
        | error e => exact Or.inl (by simp [X402.verify_payment, hl, hu, hr, hv])
        | ok v =>
          cases hp : v.is_paid with
          | true =>
            refine Or.inr ⟨⟨v, ?_, hp⟩, ?_⟩ <;>
              simp [X402.verify_payment, hl, hu, hr, hv, hp]
          | false => exact Or.inl (by simp [X402.verify_payment, hl, hu, hr, hv, hp])

theorem create_payment_request_nonce (cfg : X402Config) (service_address : String)
    (now : Nat) (fresh_nonce resource_path : String) (custom_amount : Option String)
    (req : PaymentRequest)
    (h : X402.create_payment_request cfg service_address now fresh_nonce
        resource_path custom_amount = .ok req) :
    req.nonce = fresh_nonce := by
  unfold X402.create_payment_request at h
  split at h
  · cases h
  · split at h
    · cases h
    · cases h
      rfl

/-! ### Shared concrete data for witnesses -/

/-- A concrete chain config (Ethereum). -/
def demoChain : ChainConfig :=
  { chain_type := .Evm .Ethereum, chain_id := "1", rpc_url := none }

/-- A concrete native payment request keyed by nonce n1. -/
def demoRequest : PaymentRequest :=
  { amount := "1000"
    currency := .Native
    recipient := "0x00000000000000000000000000000000000000a2"
    chain := demoChain
    description := none
    expires_at := none
    nonce := "n1" }

/-- A concrete unverified session for user alice. -/
def demoSession : PaymentSession :=
  { user_address := "alice"
    payment_request := demoRequest
    created_at := 0
    verified := false }

/-- A concrete configuration whose default chain is present and whose default
currency is Native, so create_payment_request succeeds. -/
def demoConfig : X402Config :=
  { service :=
      { name := "svc"
        description := "d"
        base_verification_url := "https://v"
        default_currency :=
          { currency_type := .Native, address := none, decimals := 18 } }
    chains := [(.Evm .Ethereum, demoChain)]
    payments :=
      { default_amount := "1000", expiration_time_secs := 3600,
        allowed_currencies := [] }
    default_chain := .Evm .Ethereum }

/-- The payment request create_payment_request builds from demoConfig at time
5 with fresh nonce f1 for resource /res. -/
def demoCreatedReq : PaymentRequest :=
  { amount := "1000"
    currency := .Native
    recipient := "srv"
    chain := demoChain
    description := some "Access to: /res"
    expires_at := some 3605
    nonce := "f1" }

/-! ### C1 -/

/-- C1: X402::verify_payment fails with the unknown-session error
(InvalidSession) when no session is stored under the nonce; fails with
AddressMismatch when the stored user_address differs from the supplied one,
for every registry whatsoever (so no verifier or ledger is consulted); fails
with ChainNotSupported when no verifier is registered for the session's chain
type; and propagates a verifier error to the caller as VerificationFailed. -/
theorem C1_verify_payment_error_paths :
    (∀ (sessions : Sessions) (registry : Registry) (u n : String),
      lookupSession sessions n = none →
      X402.verify_payment sessions registry u n = (.error .InvalidSession, sessions))
    ∧ (∀ (sessions : Sessions) (registry : Registry) (u n : String)
        (s : PaymentSession),
      lookupSession sessions n = some s → s.user_address ≠ u →
      X402.verify_payment sessions registry u n = (.error .AddressMismatch, sessions))
    ∧ (∀ (sessions : Sessions) (registry : Registry) (u n : String)
        (s : PaymentSession),
      lookupSession sessions n = some s → s.user_address = u →
      registry s.payment_request.chain.chain_type = none →
      X402.verify_payment sessions registry u n =
        (.error (.ChainNotSupported s.payment_request.chain.chain_type), sessions))
    ∧ (∀ (sessions : Sessions) (registry : Registry) (u n : String)
        (s : PaymentSession) (vf : Verifier) (e : VerificationError),
      lookupSession sessions n = some s → s.user_address = u →
      registry s.payment_request.chain.chain_type = some vf →
      vf s.payment_request u = .error e →
      X402.verify_payment sessions registry u n =
        (.error (.VerificationFailed e), sessions)) := by
  refine ⟨?_, ?_, ?_, ?_⟩
  · intro sessions registry u n h
    simp [X402.verify_payment, h]
  · intro sessions registry u n s h hne
    simp [X402.verify_payment, h, hne]
  · intro sessions registry u n s h heq hreg
    simp [X402.verify_payment, h, heq, hreg]
  · intro sessions registry u n s vf e h heq hreg hvf
    simp [X402.verify_payment, h, heq, hreg, hvf]

/-- Witness for C1: each of the four error paths evaluated at a concrete
engine state. -/
theorem C1_witness :
    X402.verify_payment [] (fun _ => none) "alice" "n1" =
      (.error .InvalidSession, [])
    ∧ X402.verify_payment [("n1", demoSession)] (fun _ => none) "bob" "n1" =
      (.error .AddressMismatch, [("n1", demoSession)])
    ∧ X402.verify_payment [("n1", demoSession)] (fun _ => none) "alice" "n1" =
      (.error (.ChainNotSupported (.Evm .Ethereum)), [("n1", demoSession)])
    ∧ X402.verify_payment [("n1", demoSession)]
        (fun _ => some (fun _ _ => .error .Timeout)) "alice" "n1" =
      (.error (.VerificationFailed .Timeout), [("n1", demoSession)]) :=
  ⟨C1_verify_payment_error_paths.1 [] (fun _ => none) "alice" "n1" rfl,
   C1_verify_payment_error_paths.2.1 [("n1", demoSession)] (fun _ => none)
     "bob" "n1" demoSession rfl (by decide),
   C1_verify_payment_error_paths.2.2.1 [("n1", demoSession)] (fun _ => none)
     "alice" "n1" demoSession rfl rfl rfl,
   C1_verify_payment_error_paths.2.2.2 [("n1", demoSession)]
     (fun _ => some (fun _ _ => .error .Timeout)) "alice" "n1" demoSession
     (fun _ _ => .error .Timeout) .Timeout rfl rfl rfl rfl⟩

/-! ### C2 -/

/-- C2: when handle_access_request is given a nonce and the inner
verify_payment call fails with any error or reports is_paid = false, the
failure is swallowed: the call returns Ok with a 402 outcome
(should_serve_content = false) whose challenge is the freshly created
PaymentRequest carrying the new nonce, a new session keyed by the new nonce
is stored, and the binding under the old nonce (hence its verified flag) is
untouched whenever the new nonce differs from it. -/
theorem C2_handle_access_request_swallows_failure
    (sessions : Sessions) (registry : Registry) (cfg : X402Config)
    (service_address : String) (now : Nat)
    (fresh_nonce user_address resource_path nonce : String)
    (custom_amount : Option String) (req : PaymentRequest)
    (hfail :
      (∃ e, (X402.verify_payment sessions registry user_address nonce).1 = .error e)
      ∨ (∃ v, (X402.verify_payment sessions registry user_address nonce).1 = .ok v
          ∧ v.is_paid = false))
    (hreq : X402.create_payment_request cfg service_address now fresh_nonce
        resource_path custom_amount = .ok req) :
    X402.handle_access_request sessions registry cfg service_address now
        fresh_nonce user_address resource_path (some nonce) custom_amount
      = (.ok { should_serve_content := false
               http_status := 402
               x402_response := some
                 { status := 402
                   payment_required := req
                   verification_url := some
                     (cfg.service.base_verification_url ++ "/" ++ req.nonce) }
               verification := none },
         insertSession fresh_nonce
           { user_address := user_address, payment_request := req,
             created_at := now, verified := false } sessions)
    ∧ req.nonce = fresh_nonce
    ∧ lookupSession
        (insertSession fresh_nonce
          { user_address := user_address, payment_request := req,
            created_at := now, verified := false } sessions) fresh_nonce
      = some { user_address := user_address, payment_request := req,
               created_at := now, verified := false }
    ∧ (fresh_nonce ≠ nonce →
        lookupSession
          (insertSession fresh_nonce
            { user_address := user_address, payment_request := req,
              created_at := now, verified := false } sessions) nonce
        = lookupSession sessions nonce) := by
  have hnonce : req.nonce = fresh_nonce :=
    create_payment_request_nonce cfg service_address now fresh_nonce
      resource_path custom_amount req hreq
  have hstate : (X402.verify_payment sessions registry user_address nonce).2
      = sessions := by
    rcases verify_payment_shape sessions registry user_address nonce with
      h | ⟨⟨v, hv, hp⟩, _⟩
    · exact h
    · rcases hfail with ⟨e, he⟩ | ⟨v', hv', hp'⟩
      · rw [he] at hv
        cases hv
      · rw [hv'] at hv
        cases hv
        rw [hp] at hp'
        cases hp'
  refine ⟨?_, hnonce, ?_, ?_⟩
  · have hissue : X402.issue_challenge sessions cfg service_address now
        fresh_nonce user_address resource_path custom_amount
        = (.ok { should_serve_content := false
                 http_status := 402
                 x402_response := some
                   { status := 402
                     payment_required := req
                     verification_url := some
                       (cfg.service.base_verification_url ++ "/" ++ req.nonce) }
                 verification := none },
           insertSession fresh_nonce
             { user_address := user_address, payment_request := req,
               created_at := now, verified := false } sessions) := by
      unfold X402.issue_challenge
      rw [hreq]
      dsimp only
      unfold X402.store_payment_session
      rw [hnonce]
    rcases hvp : X402.verify_payment sessions registry user_address nonce with ⟨r, st⟩
    rw [hvp] at hstate
    simp only at hstate
    cases r with
    | error e =>
      simp only [X402.handle_access_request, hvp]
      rw [hstate]
      exact hissue
    | ok v =>
      have hp : v.is_paid = false := by
        rcases hfail with ⟨e, he⟩ | ⟨v', hv', hp'⟩
        · rw [hvp] at he
          cases he
        · rw [hvp] at hv'
          cases hv'
          exact hp'
      simp only [X402.handle_access_request, hvp, hp, Bool.false_eq_true, if_false]
      rw [hstate]
      exact hissue
  · rw [lookupSession_insert, if_pos rfl]
  · intro hne
    rw [lookupSession_insert, if_neg hne]

/-- Witness for C2: a state with no session under nonce n0 (so verify_payment
fails with InvalidSession) yields a fresh 402 challenge keyed by f1. -/
theorem C2_witness :
    X402.handle_access_request [] (fun _ => none) demoConfig "srv" 5 "f1"
        "alice" "/res" (some "n0") none
      = (.ok { should_serve_content := false
               http_status := 402
               x402_response := some
                 { status := 402
                   payment_required := demoCreatedReq
                   verification_url := some
                     (demoConfig.service.base_verification_url ++ "/"
                       ++ demoCreatedReq.nonce) }
               verification := none },
         insertSession "f1"
           { user_address := "alice", payment_request := demoCreatedReq,
             created_at := 5, verified := false } [])
    ∧ demoCreatedReq.nonce = "f1"
    ∧ lookupSession
        (insertSession "f1"
          { user_address := "alice", payment_request := demoCreatedReq,
            created_at := 5, verified := false } []) "f1"
      = some { user_address := "alice", payment_request := demoCreatedReq,
               created_at := 5, verified := false }
    ∧ ("f1" ≠ "n0" →
        lookupSession
          (insertSession "f1"
            { user_address := "alice", payment_request := demoCreatedReq,
              created_at := 5, verified := false } []) "n0"
        = lookupSession [] "n0") :=
  C2_handle_access_request_swallows_failure [] (fun _ => none) demoConfig
    "srv" 5 "f1" "alice" "/res" "n0" none demoCreatedReq
    (Or.inl ⟨.InvalidSession, rfl⟩) (by decide)

/-! ### C3 -/

theorem verify_payment_preserves_verified (sessions : Sessions)
    (registry : Registry) (u n k : String) (s : PaymentSession)
    (hk : lookupSession sessions k = some s) (hv : s.verified = true) :
    ∃ s', lookupSession (X402.verify_payment sessions registry u n).2 k = some s'
      ∧ s'.verified = true := by
  rcases verify_payment_shape sessions registry u n with h | ⟨_, h⟩
  · exact ⟨s, by rw [h, hk], hv⟩
  · rw [h, lookupSession_setVerified]
    by_cases hnk : n = k
    · exact ⟨{ s with verified := true }, by rw [if_pos hnk, hk]; rfl, rfl⟩
    · exact ⟨s, by rw [if_neg hnk, hk], hv⟩

/-- C3: the verified flag is monotonic.  (i) store_payment_session creates
the session with verified = false.  (ii) verify_payment changes a binding
only when the verifier answered is_paid = true, and then only by setting the
session under the supplied nonce to its verified copy.  (iii) verify_payment
never takes a verified session back to unverified.  (iv) neither does
handle_access_request, provided the freshly generated nonce is unused (the
UUID-freshness assumption). -/
theorem C3_verified_monotonic :
    (∀ (sessions : Sessions) (now : Nat) (u : String) (req : PaymentRequest),
      lookupSession (X402.store_payment_session sessions now u req) req.nonce
        = some { user_address := u, payment_request := req,
                 created_at := now, verified := false })
    ∧ (∀ (sessions : Sessions) (registry : Registry) (u n k : String),
      lookupSession (X402.verify_payment sessions registry u n).2 k
        = lookupSession sessions k
      ∨ (∃ v s, (X402.verify_payment sessions registry u n).1 = .ok v
          ∧ v.is_paid = true ∧ k = n ∧ lookupSession sessions k = some s
          ∧ lookupSession (X402.verify_payment sessions registry u n).2 k
            = some { s with verified := true }))
    ∧ (∀ (sessions : Sessions) (registry : Registry) (u n k : String)
        (s : PaymentSession),
      lookupSession sessions k = some s → s.verified = true →
      ∃ s', lookupSession (X402.verify_payment sessions registry u n).2 k = some s'
        ∧ s'.verified = true)
    ∧ (∀ (sessions : Sessions) (registry : Registry) (cfg : X402Config)
        (service_address : String) (now : Nat) (fresh_nonce : String)
        (user_address resource_path : String) (payment_nonce : Option String)
        (custom_amount : Option String) (k : String) (s : PaymentSession),
      lookupSession sessions fresh_nonce = none →
      lookupSession sessions k = some s → s.verified = true →
      ∃ s', lookupSession
          (X402.handle_access_request sessions registry cfg service_address now
            fresh_nonce user_address resource_path payment_nonce custom_amount).2 k
        = some s' ∧ s'.verified = true) := by
  refine ⟨?_, ?_, ?_, ?_⟩
  · intro sessions now u req
    rw [X402.store_payment_session, lookupSession_insert, if_pos rfl]
  · intro sessions registry u n k
    rcases verify_payment_shape sessions registry u n with h | ⟨⟨v, hv, hp⟩, h⟩
    · exact Or.inl (by rw [h])
    · by_cases hnk : n = k
      · cases hs : lookupSession sessions k with
        | none =>
          refine Or.inl ?_
          rw [h, lookupSession_setVerified, if_pos hnk, hs]
          rfl
        | some s =>
          refine Or.inr ⟨v, s, hv, hp, hnk.symm, rfl, ?_⟩
          rw [h, lookupSession_setVerified, if_pos hnk, hs]
          rfl
      · refine Or.inl ?_
        rw [h, lookupSession_setVerified, if_neg hnk]
  · intro sessions registry u n k s hk hv
    exact verify_payment_preserves_verified sessions registry u n k s hk hv
  · intro sessions registry cfg service_address now fresh_nonce user_address
      resource_path payment_nonce custom_amount k s hfresh hk hv
    have hkf : fresh_nonce ≠ k := by
      intro he
      rw [he] at hfresh
      rw [hfresh] at hk
      cases hk
    have hissue : ∀ (m : Sessions) (t : PaymentSession),
        lookupSession m k = some t → t.verified = true →
        ∃ s', lookupSession
            (X402.issue_challenge m cfg service_address now fresh_nonce
              user_address resource_path custom_amount).2 k
          = some s' ∧ s'.verified = true := by
      intro m t hm hvt
      unfold X402.issue_challenge
      cases hc : X402.create_payment_request cfg service_address now fresh_nonce
          resource_path custom_amount with
      | error e => exact ⟨t, hm, hvt⟩
      | ok req =>
        have hreqn : req.nonce = fresh_nonce :=
          create_payment_request_nonce cfg service_address now fresh_nonce
            resource_path custom_amount req hc
        refine ⟨t, ?_, hvt⟩
        dsimp only
        rw [X402.store_payment_session, hreqn, lookupSession_insert, if_neg hkf]
        exact hm
    cases payment_nonce with
    | none => exact hissue sessions s hk hv
    | some nonce =>
      rcases hvp : X402.verify_payment sessions registry user_address nonce with ⟨r, st⟩
      have hmono := verify_payment_preserves_verified sessions registry
        user_address nonce k s hk hv
      rw [hvp] at hmono
      simp only at hmono
      obtain ⟨s', hs', hv'⟩ := hmono
      cases r with
      | error e =>
        simp only [X402.handle_access_request, hvp]
        exact hissue st s' hs' hv'
      | ok v =>
        cases hp : v.is_paid with
        | true =>
          simp only [X402.handle_access_request, hvp, hp, if_true]
          exact ⟨s', hs', hv'⟩
        | false =>
          simp only [X402.handle_access_request, hvp, hp, Bool.false_eq_true,
            if_false]
          exact hissue st s' hs' hv'


/-- A concrete session whose verified flag is already true. -/
def demoVerifiedSession : PaymentSession :=
  { user_address := "alice"
    payment_request := demoRequest
    created_at := 0
    verified := true }

/-- Witness for C3: creation stores verified = false, and both verify_payment
(here failing with ChainNotSupported) and handle_access_request (falling
through to a fresh challenge) keep a verified session verified. -/
theorem C3_witness :
    lookupSession (X402.store_payment_session [] 7 "alice" demoRequest)
        demoRequest.nonce
      = some { user_address := "alice", payment_request := demoRequest,
               created_at := 7, verified := false }
    ∧ (∃ s', lookupSession
          (X402.verify_payment [("n1", demoVerifiedSession)] (fun _ => none)
            "alice" "n1").2 "n1"
        = some s' ∧ s'.verified = true)
    ∧ (∃ s', lookupSession
          (X402.handle_access_request [("n1", demoVerifiedSession)]
            (fun _ => none) demoConfig "srv" 5 "f1" "alice" "/res"
            (some "n1") none).2 "n1"
        = some s' ∧ s'.verified = true) :=
  ⟨C3_verified_monotonic.1 [] 7 "alice" demoRequest,
   C3_verified_monotonic.2.2.1 [("n1", demoVerifiedSession)] (fun _ => none)
     "alice" "n1" "n1" demoVerifiedSession (by decide) (by decide),
   C3_verified_monotonic.2.2.2 [("n1", demoVerifiedSession)] (fun _ => none)
     demoConfig "srv" 5 "f1" "alice" "/res" (some "n1") none "n1"
     demoVerifiedSession (by decide) (by decide) (by decide)⟩

/-! ### C4 -/

/-- The payer address used in the repeat-verification scenario. -/
def cexPayer : String := "0x00000000000000000000000000000000000000a1"

/-- A session for the payer under nonce n1, not yet verified. -/
def cexSession : PaymentSession :=
  { user_address := cexPayer
    payment_request := demoRequest
    created_at := 0
    verified := false }

/-- The on-chain transaction paying the required 1000 wei. -/
def cexTx : EvmVerifier.EvmTx :=
  { tx_from := 161, tx_to := some 162, value := 1000 }

/-- The recipient-addressed log entry owning cexTx, in block 450. -/
def cexLog : EvmVerifier.RawLog :=
  { transaction_hash := some "0xhash1", block_number := some 450,
    log_index := some 0, data := [] }

/-- Ledger state at the first call: head block 500, so the scan window is
400-500 and block 450 is inside it. -/
def ledgerA : EvmVerifier.EvmLedger :=
  { get_block_number := .ok 500
    get_logs := fun f => if f = .native 400 500 162 then .ok [cexLog] else .ok []
    get_transaction := fun h => if h = "0xhash1" then .ok (some cexTx) else .ok none }

/-- Ledger state at the later call: the chain advanced to block 700, so the
scan window is 600-700 and the payment in block 450 is no longer visible. -/
def ledgerB : EvmVerifier.EvmLedger :=
  { get_block_number := .ok 700
    get_logs := fun _ => .ok []
    get_transaction := fun h => if h = "0xhash1" then .ok (some cexTx) else .ok none }

/-- The registry holding the EVM verifier as it observes ledgerA. -/
def registryA : Registry := fun ct =>
  if ct = .Evm .Ethereum then some (EvmVerifier.asVerifier ledgerA 500) else none

/-- The same registered verifier observing the advanced ledgerB. -/
def registryB : Registry := fun ct =>
  if ct = .Evm .Ethereum then some (EvmVerifier.asVerifier ledgerB 700) else none

/-- Counterexample to C4: the first verify_payment call reports is_paid and
sets the session verified, yet a later verify_payment with the same nonce and
the same user address returns is_paid = false, because the verifier re-scans
the ledger (the session's verified flag is never consulted) and the paying
transaction has left the 100-block window. -/
theorem C4_counterexample :
    (X402.verify_payment [("n1", cexSession)] registryA cexPayer "n1").1.map
        PaymentVerification.is_paid = .ok true
    ∧ (lookupSession
        (X402.verify_payment [("n1", cexSession)] registryA cexPayer "n1").2
        "n1").map PaymentSession.verified = some true
    ∧ (X402.verify_payment
        (X402.verify_payment [("n1", cexSession)] registryA cexPayer "n1").2
        registryB cexPayer "n1").1.map PaymentVerification.is_paid
      = .ok false := by
  refine ⟨?_, ?_, ?_⟩ <;> decide

/-- C4 as amended: a repeat verify_payment with the same nonce and user
address again returns the same is_paid = true verification, provided the
registered verifier observes the same ledger answer (same registry value);
in general the outcome is recomputed from the current ledger view. -/
theorem C4_amended_repeat_verify (sessions : Sessions) (registry : Registry)
    (u n : String) (v : PaymentVerification)
    (h : (X402.verify_payment sessions registry u n).1 = .ok v)
    (hp : v.is_paid = true) :
    (X402.verify_payment (X402.verify_payment sessions registry u n).2
        registry u n).1 = .ok v := by
  cases hl : lookupSession sessions n with
  | none => simp [X402.verify_payment, hl] at h
  | some s =>
    by_cases hu : s.user_address ≠ u
    · simp [X402.verify_payment, hl, hu] at h
    · cases hr : registry s.payment_request.chain.chain_type with
      | none => simp [X402.verify_payment, hl, hu, hr] at h
      | some vf =>
        cases hv : vf s.payment_request u with
        | error e => simp [X402.verify_payment, hl, hu, hr, hv] at h
        | ok v' =>
          cases hp' : v'.is_paid with
          | false =>
            have hvv : v' = v := by
              simp [X402.verify_payment, hl, hu, hr, hv, hp'] at h
              exact h
            rw [hvv, hp] at hp'
            cases hp'
          | true =>
            have hvv : v' = v := by
              simp [X402.verify_payment, hl, hu, hr, hv, hp'] at h
              exact h
            subst hvv
            have hstate : (X402.verify_payment sessions registry u n).2
                = setVerified sessions n := by
              simp [X402.verify_payment, hl, hu, hr, hv, hp']
            rw [hstate]
            have hl2 : lookupSession (setVerified sessions n) n
                = some { s with verified := true } := by
              rw [lookupSession_setVerified, if_pos rfl, hl]
              rfl
            simp [X402.verify_payment, hl2, hu, hr, hv, hp']

/-- The verification the first call in the C4 scenario produces. -/
def cexVerification : PaymentVerification :=
  { is_paid := true
    paid_amount := "1000"
    transaction_hash := some "0xhash1"
    verified_at := 500
    chain := demoChain
    transaction_logs :=
      [{ transaction_hash := "0xhash1"
         tx_from := "0x00000000000000000000000000000000000000a1"
         tx_to := "0x00000000000000000000000000000000000000a2"
         value := "1000"
         block_number := 450
         log_index := 0
         data := none }] }

/-- Witness for the amended C4: with the ledger view unchanged, the repeat
call returns the same is_paid = true verification. -/
theorem C4_witness :
    (X402.verify_payment
        (X402.verify_payment [("n1", cexSession)] registryA cexPayer "n1").2
        registryA cexPayer "n1").1 = .ok cexVerification :=
  C4_amended_repeat_verify [("n1", cexSession)] registryA cexPayer "n1"
    cexVerification (by decide) (by decide)

/-! ### C5 -/

/-- The recipient-addressed transactions the native scan resolves: each log
with a transaction hash whose get_transaction lookup answers Ok(Some tx). -/
def resolvedTxs (getTx : String → Except String (Option EvmVerifier.EvmTx)) :
    List EvmVerifier.RawLog → List (EvmVerifier.RawLog × String × EvmVerifier.EvmTx)
  | [] => []
  | log :: rest =>
    match log.transaction_hash with
    | none => resolvedTxs getTx rest
    | some h =>
      match getTx h with
      | .ok (some tx) => (log, h, tx) :: resolvedTxs getTx rest
      | _ => resolvedTxs getTx rest

/-- The audit-trail entry the native scan records for one resolved
transaction. -/
def nativeEntry (r : EvmVerifier.RawLog × String × EvmVerifier.EvmTx) :
    TransactionLog :=
  { transaction_hash := r.2.1
    tx_from := addrFormat r.2.2.tx_from
    tx_to := addrFormat (r.2.2.tx_to.getD 0)
    value := toString r.2.2.value
    block_number := r.1.block_number.getD 0
    log_index := r.1.log_index.getD 0
    data := none }

/-- The native scan is exactly: flag iff some resolved transaction is from
the payer with sufficient value, audit trail = every resolved transaction. -/
theorem scanNative_eq (getTx : String → Except String (Option EvmVerifier.EvmTx))
    (payer required : Nat) (logs : List EvmVerifier.RawLog) :
    EvmVerifier.scanNative getTx payer required logs
      = ((resolvedTxs getTx logs).any
          (fun r => r.2.2.tx_from == payer && decide (required ≤ r.2.2.value)),
        (resolvedTxs getTx logs).map nativeEntry) := by
  induction logs with
  | nil => rfl
  | cons log rest ih =>
    cases hh : log.transaction_hash with
    | none => simp [EvmVerifier.scanNative, resolvedTxs, hh, ih]
    | some h =>
      cases hg : getTx h with
      | error e => simp [EvmVerifier.scanNative, resolvedTxs, hh, hg, ih]
      | ok o =>
        cases o with
        | none => simp [EvmVerifier.scanNative, resolvedTxs, hh, hg, ih]
        | some tx =>
          simp [EvmVerifier.scanNative, resolvedTxs, hh, hg, ih, nativeEntry]

/-- C5: for a Native-currency request over the 100-block window, the EVM
verifier reports is_paid = true iff some resolved recipient-addressed
transaction has the payer as sender and value covering the required amount;
every resolved transaction appears in transaction_logs regardless of whether
it qualifies; when paid the paid_amount is the requested amount string, when
not paid it is "0"; and in the single-transaction scenario the reported
transaction_hash is that transaction's hash. -/
theorem C5_evm_native_window (ledger : EvmVerifier.EvmLedger) (now : Nat)
    (payment_request : PaymentRequest) (payer_address : String)
    (payer recipient required latest : Nat) (logs : List EvmVerifier.RawLog)
    (hcur : payment_request.currency = .Native)
    (hpayer : EvmVerifier.parse_address payer_address = .ok payer)
    (hrec : EvmVerifier.parse_address payment_request.recipient = .ok recipient)
    (hamt : EvmVerifier.parse_amount payment_request.amount = .ok required)
    (hblock : ledger.get_block_number = .ok latest)
    (hlogs : ledger.get_logs (.native (latest - 100) latest recipient) = .ok logs) :
    ∃ v, EvmVerifier.verify_payment_internal ledger now payment_request
        payer_address = .ok v
      ∧ (v.is_paid = true ↔ ∃ r ∈ resolvedTxs ledger.get_transaction logs,
          r.2.2.tx_from = payer ∧ required ≤ r.2.2.value)
      ∧ v.transaction_logs = (resolvedTxs ledger.get_transaction logs).map nativeEntry
      ∧ (v.is_paid = true → v.paid_amount = payment_request.amount)
      ∧ (v.is_paid = false → v.paid_amount = "0")
      ∧ (∀ lg h tx, resolvedTxs ledger.get_transaction logs = [(lg, h, tx)] →
          v.transaction_hash = some h) := by
  have hscan : EvmVerifier.verify_native_payment ledger payer recipient required
      = .ok (EvmVerifier.scanNative ledger.get_transaction payer required logs) := by
    unfold EvmVerifier.verify_native_payment EvmVerifier.check_recent_transactions
    rw [hblock]
    dsimp only
    rw [hlogs]
  have hmain : EvmVerifier.verify_payment_internal ledger now payment_request
      payer_address
      = .ok { is_paid :=
                (EvmVerifier.scanNative ledger.get_transaction payer required logs).1
              paid_amount :=
                if (EvmVerifier.scanNative ledger.get_transaction payer required
                    logs).1 then payment_request.amount else "0"
              transaction_hash :=
                (EvmVerifier.scanNative ledger.get_transaction payer required
                  logs).2.head?.map (·.transaction_hash)
              verified_at := now
              chain := payment_request.chain
              transaction_logs :=
                (EvmVerifier.scanNative ledger.get_transaction payer required
                  logs).2 } := by
    unfold EvmVerifier.verify_payment_internal
    rw [hpayer, hrec, hamt, hcur]
    dsimp only
    rw [hscan]
  rw [scanNative_eq] at hmain
  refine ⟨_, hmain, ?_, rfl, ?_, ?_, ?_⟩
  · simp only [List.any_eq_true, Bool.and_eq_true, beq_iff_eq, decide_eq_true_eq]
  · intro hpaid
    simp only at hpaid
    simp only [hpaid, if_true]
  · intro hpaid
    simp only at hpaid
    simp only [hpaid, Bool.false_eq_true, if_false]
  · intro lg h tx hres
    simp only [hres, List.map_cons, List.head?]
    rfl

/-- Witness for C5: the concrete ledgerA scenario (one qualifying transaction
in the window) evaluated through the theorem. -/
theorem C5_witness :
    ∃ v, EvmVerifier.verify_payment_internal ledgerA 500 demoRequest cexPayer
        = .ok v
      ∧ (v.is_paid = true ↔ ∃ r ∈ resolvedTxs ledgerA.get_transaction [cexLog],
          r.2.2.tx_from = 161 ∧ 1000 ≤ r.2.2.value)
      ∧ v.transaction_logs
          = (resolvedTxs ledgerA.get_transaction [cexLog]).map nativeEntry
      ∧ (v.is_paid = true → v.paid_amount = demoRequest.amount)
      ∧ (v.is_paid = false → v.paid_amount = "0")
      ∧ (∀ lg h tx, resolvedTxs ledgerA.get_transaction [cexLog] = [(lg, h, tx)] →
          v.transaction_hash = some h) :=
  C5_evm_native_window ledgerA 500 demoRequest cexPayer 161 162 1000 500 [cexLog]
    rfl (by decide) (by decide) (by decide) rfl (by decide)

/-! ### C6 -/

/-- The Transfer events the ERC20 scan processes: each log carrying a
transaction hash and at least 32 data bytes. -/
def erc20Events : List EvmVerifier.RawLog → List (EvmVerifier.RawLog × String)
  | [] => []
  | log :: rest =>
    match log.transaction_hash with
    | none => erc20Events rest
    | some h =>
      if log.data.length < 32 then erc20Events rest
      else (log, h) :: erc20Events rest

/-- The transferred value carried by a Transfer event: the big-endian integer
in its first 32 data bytes. -/
def erc20Amount (log : EvmVerifier.RawLog) : Nat :=
  (log.data.take 32).foldl (fun acc b => acc * 256 + b) 0

/-- The audit-trail entry the ERC20 scan records for one event. -/
def erc20Entry (payer recipient : Nat) (r : EvmVerifier.RawLog × String) :
    TransactionLog :=
  { transaction_hash := r.2
    tx_from := addrFormat payer
    tx_to := addrFormat recipient
    value := toString (erc20Amount r.1)
    block_number := r.1.block_number.getD 0
    log_index := r.1.log_index.getD 0
    data := some (hexEncode (r.1.data.take 32)) }

/-- The ERC20 scan is exactly: flag iff some processed event transfers at
least the adjusted amount, audit trail = every processed event. -/
theorem scanErc20_eq (payer recipient adjusted : Nat)
    (logs : List EvmVerifier.RawLog) :
    EvmVerifier.scanErc20 payer recipient adjusted logs
      = ((erc20Events logs).any (fun r => decide (adjusted ≤ erc20Amount r.1)),
        (erc20Events logs).map (erc20Entry payer recipient)) := by
  induction logs with
  | nil => rfl
  | cons log rest ih =>
    cases hh : log.transaction_hash with
    | none => simp [EvmVerifier.scanErc20, erc20Events, hh, ih]
    | some h =>
      by_cases hd : log.data.length < 32
      · simp [EvmVerifier.scanErc20, erc20Events, hh, hd, ih]
      · simp [EvmVerifier.scanErc20, erc20Events, hh, hd, ih, erc20Entry,
          erc20Amount]

/-- C6: for a Token-currency request the requirement is scaled by 10 to the
token's declared decimals, and the verifier accepts iff some Transfer event
returned by the token/payer/recipient-scoped window filter carries a
transferred value at least the scaled requirement.  The bounds keep the
scenario inside the range where the source's U256 arithmetic does not panic:
10^decimals < 2^256 rules out the panicking U256::pow (in particular the
required = 0, decimals >= 78 corner), and required * 10^decimals < 2^256
rules out the panicking multiply. -/
theorem C6_evm_erc20_scaled (ledger : EvmVerifier.EvmLedger) (now : Nat)
    (payment_request : PaymentRequest) (payer_address token_address : String)
    (payer recipient token required decimals latest : Nat)
    (logs : List EvmVerifier.RawLog)
    (hcur : payment_request.currency = .Token token_address decimals)
    (_hdec : decimals < 256)
    (_hpow : 10 ^ decimals < 2 ^ 256)
    (_hbound : required * 10 ^ decimals < 2 ^ 256)
    (hpayer : EvmVerifier.parse_address payer_address = .ok payer)
    (hrec : EvmVerifier.parse_address payment_request.recipient = .ok recipient)
    (htoken : EvmVerifier.parse_address token_address = .ok token)
    (hamt : EvmVerifier.parse_amount payment_request.amount = .ok required)
    (hblock : ledger.get_block_number = .ok latest)
    (hlogs : ledger.get_logs
        (.erc20Transfer (latest - 100) latest token payer recipient) = .ok logs) :
    ∃ v, EvmVerifier.verify_payment_internal ledger now payment_request
        payer_address = .ok v
      ∧ (v.is_paid = true ↔ ∃ r ∈ erc20Events logs,
          required * 10 ^ decimals ≤ erc20Amount r.1)
      ∧ v.transaction_logs = (erc20Events logs).map (erc20Entry payer recipient) := by
  have hscan : EvmVerifier.verify_erc20_payment ledger payer recipient token
      required decimals
      = .ok (EvmVerifier.scanErc20 payer recipient (required * 10 ^ decimals)
          logs) := by
    unfold EvmVerifier.verify_erc20_payment
    rw [hblock]
    dsimp only
    rw [hlogs]
  have hmain : EvmVerifier.verify_payment_internal ledger now payment_request
      payer_address
      = .ok { is_paid := (EvmVerifier.scanErc20 payer recipient
                (required * 10 ^ decimals) logs).1
              paid_amount :=
                if (EvmVerifier.scanErc20 payer recipient
                    (required * 10 ^ decimals) logs).1
                then payment_request.amount else "0"
              transaction_hash :=
                (EvmVerifier.scanErc20 payer recipient
                  (required * 10 ^ decimals) logs).2.head?.map
                  (·.transaction_hash)
              verified_at := now
              chain := payment_request.chain
              transaction_logs :=
                (EvmVerifier.scanErc20 payer recipient
                  (required * 10 ^ decimals) logs).2 } := by
    unfold EvmVerifier.verify_payment_internal
    rw [hpayer, hrec, hamt, hcur]
    dsimp only
    rw [htoken]
    dsimp only
    rw [hscan]
  rw [scanErc20_eq] at hmain
  refine ⟨_, hmain, ?_, rfl⟩
  simp only [List.any_eq_true, decide_eq_true_eq]

/-- A token-currency request: amount "1" of a token with 6 decimals. -/
def tokenReq : PaymentRequest :=
  { amount := "1"
    currency := .Token "0x00000000000000000000000000000000000000a3" 6
    recipient := "0x00000000000000000000000000000000000000a2"
    chain := demoChain
    description := none
    expires_at := none
    nonce := "n2" }

/-- A Transfer event carrying raw value 1000000 (0x0F4240) in its data. -/
def payLog : EvmVerifier.RawLog :=
  { transaction_hash := some "0xtransfer1", block_number := some 460,
    log_index := some 1, data := List.replicate 29 0 ++ [15, 66, 64] }

/-- A Transfer event carrying raw value 999999 (0x0F423F) in its data. -/
def underLog : EvmVerifier.RawLog :=
  { transaction_hash := some "0xtransfer2", block_number := some 461,
    log_index := some 2, data := List.replicate 29 0 ++ [15, 66, 63] }

/-- Ledger whose token/payer/recipient Transfer filter returns payLog. -/
def tokenLedgerPay : EvmVerifier.EvmLedger :=
  { get_block_number := .ok 500
    get_logs := fun f =>
      if f = .erc20Transfer 400 500 163 161 162 then .ok [payLog] else .ok []
    get_transaction := fun _ => .ok none }

/-- Ledger whose token/payer/recipient Transfer filter returns underLog. -/
def tokenLedgerUnder : EvmVerifier.EvmLedger :=
  { get_block_number := .ok 500
    get_logs := fun f =>
      if f = .erc20Transfer 400 500 163 161 162 then .ok [underLog] else .ok []
    get_transaction := fun _ => .ok none }

/-- Witness for C6: required amount "1" with decimals = 6 accepts a raw
transferred value of 1000000 and rejects 999999. -/
theorem C6_witness :
    (∃ v, EvmVerifier.verify_payment_internal tokenLedgerPay 500 tokenReq
        cexPayer = .ok v
      ∧ (v.is_paid = true ↔ ∃ r ∈ erc20Events [payLog],
          1 * 10 ^ 6 ≤ erc20Amount r.1)
      ∧ v.transaction_logs = (erc20Events [payLog]).map (erc20Entry 161 162))
    ∧ (∃ v, EvmVerifier.verify_payment_internal tokenLedgerUnder 500 tokenReq
        cexPayer = .ok v
      ∧ (v.is_paid = true ↔ ∃ r ∈ erc20Events [underLog],
          1 * 10 ^ 6 ≤ erc20Amount r.1)
      ∧ v.transaction_logs = (erc20Events [underLog]).map (erc20Entry 161 162))
    ∧ (EvmVerifier.verify_payment_internal tokenLedgerPay 500 tokenReq
        cexPayer).map PaymentVerification.is_paid = .ok true
    ∧ (EvmVerifier.verify_payment_internal tokenLedgerUnder 500 tokenReq
        cexPayer).map PaymentVerification.is_paid = .ok false :=
  ⟨C6_evm_erc20_scaled tokenLedgerPay 500 tokenReq cexPayer
      "0x00000000000000000000000000000000000000a3" 161 162 163 1 6 500 [payLog]
      rfl (by decide) (by decide) (by decide) (by decide) (by decide)
      (by decide) (by decide) rfl (by decide),
   C6_evm_erc20_scaled tokenLedgerUnder 500 tokenReq cexPayer
      "0x00000000000000000000000000000000000000a3" 161 162 163 1 6 500 [underLog]
      rfl (by decide) (by decide) (by decide) (by decide) (by decide)
      (by decide) (by decide) rfl (by decide),
   by decide, by decide⟩

/-! ### C7 -/

/-- C7: the Solana amount parser resolves both "0.5" (decimal-point string,
scaled by 10^9) and "500000000" (plain base units) to 500000000 lamports, and
a successful recipient-matching transaction transferring exactly that amount
is accepted against either required-amount string. -/
theorem C7_solana_amount_parsing :
    SolanaVerifier.parse_amount_to_lamports "0.5" = .ok 500000000
    ∧ SolanaVerifier.parse_amount_to_lamports "500000000" = .ok 500000000
    ∧ (∀ (t : SolanaVerifier.TransactionInfo) (recipient : String),
        t.successful = true → t.recipient = recipient →
        t.payment_amount = 500000000 →
        SolanaVerifier.check_transaction_payment t recipient "0.5" = .ok true
        ∧ SolanaVerifier.check_transaction_payment t recipient "500000000"
          = .ok true) := by
  have h05 : SolanaVerifier.parse_amount_to_lamports "0.5" = .ok 500000000 := by
    decide
  have hint : SolanaVerifier.parse_amount_to_lamports "500000000"
      = .ok 500000000 := by decide
  refine ⟨h05, hint, ?_⟩
  intro t recipient hs hr hp
  constructor
  · unfold SolanaVerifier.check_transaction_payment
    rw [hs, hr, hp, h05]
    simp
  · unfold SolanaVerifier.check_transaction_payment
    rw [hs, hr, hp, hint]
    simp

/-- A concrete successful Solana transaction transferring 500000000 lamports
to solRecipient. -/
def demoSolTx : SolanaVerifier.TransactionInfo :=
  { successful := true
    recipient := "solRecipient"
    payment_amount := 500000000
    output_amount := some 500000000
    transaction_hash := "sig1"
    tx_from := "solPayer"
    tx_to := "solRecipient"
    value := "500000000"
    block_number := 1
    log_index := 0
    data := none }

/-- Witness for C7: the acceptance conjunct evaluated on demoSolTx. -/
theorem C7_witness :
    SolanaVerifier.check_transaction_payment demoSolTx "solRecipient" "0.5"
      = .ok true
    ∧ SolanaVerifier.check_transaction_payment demoSolTx "solRecipient"
        "500000000" = .ok true :=
  C7_solana_amount_parsing.2.2 demoSolTx "solRecipient" rfl rfl rfl

/-! ### C8 -/

/-- A ledger whose transaction listing fails (e.g. an RPC outage). -/
def solLedgerListFail : SolanaVerifier.SolanaLedger :=
  { is_valid_address := fun _ => true
    get_transactions_by_recipient_and_payer_strict := fun _ _ _ => .error "rpc down"
    get_transaction_details := fun _ => .error "rpc down" }

/-- A ledger whose listing succeeds but whose per-transaction detail fetch
fails. -/
def solLedgerDetailFail : SolanaVerifier.SolanaLedger :=
  { is_valid_address := fun _ => true
    get_transactions_by_recipient_and_payer_strict := fun _ _ _ =>
      .ok [{ signature := "sig1" }]
    get_transaction_details := fun _ => .error "rpc down" }

/-- A Solana payment request. -/
def solReq : PaymentRequest :=
  { amount := "0.5"
    currency := .Native
    recipient := "solRecipient"
    chain := demoChain
    description := none
    expires_at := none
    nonce := "n3" }

/-- C8 fails on the code: SolanaVerifier::verify_payment terminates the
process abnormally on two failure paths.  A failed transaction listing hits
the todo! arm (panic), and a failed per-transaction detail fetch hits
unwrap on an Err (panic), instead of returning a typed error as the spec
requires. -/
theorem C8_solana_panics :
    SolanaVerifier.verify_payment solLedgerListFail 0 solReq "solPayer"
      = .panicked "not yet implemented"
    ∧ SolanaVerifier.verify_payment solLedgerDetailFail 0 solReq "solPayer"
      = .panicked "called Result unwrap on an Err value" := by
  constructor <;> decide

/-! ### C9 -/

/-- C9: register_chain_verifier fails with ChainNotSupported and returns the
registry untouched whenever the chain type is the top-level Custom family or
has no configuration entry. -/
theorem C9_register_unsupported (cfg : X402Config) (registry : Registry)
    (chain_type : ChainType) (mkEvm : Except VerificationError Verifier)
    (mkAptos mkSui mkSolana : Verifier)
    (h : (∃ s, chain_type = .Custom s)
       ∨ lookupChainConfig cfg.chains chain_type = none) :
    X402.register_chain_verifier cfg registry chain_type mkEvm mkAptos mkSui
        mkSolana
      = (.error (.ChainNotSupported chain_type), registry) := by
  rcases h with ⟨s, rfl⟩ | hnone
  · unfold X402.register_chain_verifier
    cases hc : lookupChainConfig cfg.chains (.Custom s) <;> rfl
  · unfold X402.register_chain_verifier
    rw [hnone]

/-- Witness for C9: registering the Custom family (even with a config entry
present for it this would fail, here without one) and registering a chain
absent from the configuration both fail and leave the registry as it was. -/
theorem C9_witness :
    X402.register_chain_verifier demoConfig (fun _ => none) (.Custom "mychain")
        (.error .Timeout) (fun _ _ => .error .Timeout)
        (fun _ _ => .error .Timeout) (fun _ _ => .error .Timeout)
      = (.error (.ChainNotSupported (.Custom "mychain")), fun _ => none)
    ∧ X402.register_chain_verifier demoConfig (fun _ => none) (.Solana .Mainnet)
        (.error .Timeout) (fun _ _ => .error .Timeout)
        (fun _ _ => .error .Timeout) (fun _ _ => .error .Timeout)
      = (.error (.ChainNotSupported (.Solana .Mainnet)), fun _ => none) :=
  ⟨C9_register_unsupported demoConfig (fun _ => none) (.Custom "mychain")
      (.error .Timeout) (fun _ _ => .error .Timeout) (fun _ _ => .error .Timeout)
      (fun _ _ => .error .Timeout) (Or.inl ⟨"mychain", rfl⟩),
   C9_register_unsupported demoConfig (fun _ => none) (.Solana .Mainnet)
      (.error .Timeout) (fun _ _ => .error .Timeout) (fun _ _ => .error .Timeout)
      (fun _ _ => .error .Timeout) (Or.inr (by decide))⟩

/-! ### C10 -/

theorem chainIdTablesCase (k : Nat) (e : Except VerificationError Nat)
    (o : Option Nat) (he : e = .ok k) (ho : o = some k) :
    (∀ n, e = .ok n ↔ o = some n)
    ∧ ((∃ msg, e = .error (.ParseError msg)) ↔ o = none) := by
  subst he
  subst ho
  constructor
  · intro n
    simp
  · simp

/-- C10: for every EvmChain variant the numeric chain id EvmVerifier::new
validates against is exactly the canonical chain-id string of
ChainType::get_standard_chain_id read as a decimal u64; for Custom ids,
construction fails with ParseError exactly when the id string does not parse
as a decimal u64.  The two tables never disagree. -/
theorem C10_chain_id_tables_agree (c : EvmChain) :
    (∀ n, EvmVerifier.expectedChainId c = .ok n ↔
      parseU64 (ChainType.get_standard_chain_id (.Evm c)) = some n)
    ∧ ((∃ msg, EvmVerifier.expectedChainId c = .error (.ParseError msg)) ↔
      parseU64 (ChainType.get_standard_chain_id (.Evm c)) = none) := by
  cases c with
  | Ethereum => exact chainIdTablesCase 1 _ _ rfl (by decide)
  | Polygon => exact chainIdTablesCase 137 _ _ rfl (by decide)
  | BinanceSmartChain => exact chainIdTablesCase 56 _ _ rfl (by decide)
  | Arbitrum => exact chainIdTablesCase 42161 _ _ rfl (by decide)
  | Optimism => exact chainIdTablesCase 10 _ _ rfl (by decide)
  | Avalanche => exact chainIdTablesCase 43114 _ _ rfl (by decide)
  | Base => exact chainIdTablesCase 8453 _ _ rfl (by decide)
  | Custom id =>
    constructor
    · intro n
      simp only [EvmVerifier.expectedChainId, ChainType.get_standard_chain_id]
      cases hp : parseU64 id <;> simp
    · simp only [EvmVerifier.expectedChainId, ChainType.get_standard_chain_id]
      cases hp : parseU64 id <;> simp

/-- Witness for C10: a parseable Custom id agrees with the canonical table,
and an unparseable one fails construction with ParseError. -/
theorem C10_witness :
    (EvmVerifier.expectedChainId (.Custom "8453") = .ok 8453 ↔
      parseU64 (ChainType.get_standard_chain_id (.Evm (.Custom "8453")))
        = some 8453)
    ∧ ((∃ msg, EvmVerifier.expectedChainId (.Custom "abc")
          = .error (.ParseError msg)) ↔
      parseU64 (ChainType.get_standard_chain_id (.Evm (.Custom "abc"))) = none) :=
  ⟨(C10_chain_id_tables_agree (.Custom "8453")).1 8453,
   (C10_chain_id_tables_agree (.Custom "abc")).2⟩
